import Mathlib

/-!
CloudConvert adapter (`weaver/converter/cloudconvert/cloudconvert.go`)

A shallow embedding of the CloudConvert client of athenapdf and the properties of
its three entry points `Client.NewProcess`, `Process.StartConversion` and
`CloudConvert.Convert` (plus `CloudConvert.Upload`).

Conventions of the embedding

* A Go result pair `(T, error)` is a Lean pair `T × Option GoError`; `none` is the
  `nil` error.  A `[]byte` result is `Option Bytes`; `none` is the `nil` slice.
* Everything the Go code obtains from outside the package (the HTTP transport, the
  JSON decoder of `encoding/json`, the `%+v` rendering of `fmt`, the random UUID)
  is a field of `Env`; the functions of the package are Lean functions of an
  `Env` and of their Go arguments.
* The outbound effects (log lines and HTTP requests) are returned, in program
  order, as a list of `Event`s next to the Go result.
* `defer res.Body.Close()` and the unused `done` channel of `Convert` have no
  observable effect on the results and are left out.
-/

/-- A Go `error` value, identified with the text its `Error()` method returns. -/
structure GoError where
  msg : String
deriving DecidableEq, Repr

/-- A Go `[]byte` that is not nil. -/
abbrev Bytes := List UInt8

/-- A JSON document: what `json.Marshal` writes and what decoding into
`map[string]interface{}` reads.  Numbers are kept as their literal text. -/
inductive JSON where
  | null
  | bool (b : Bool)
  | num (literal : String)
  | str (s : String)
  | arr (items : List JSON)
  | obj (fields : List (String × JSON))

/-- Go `map[string]interface{}` as filled by the JSON decoder: the members of a
JSON object. -/
abbrev JSONMap := List (String × JSON)

/-- Keys of a JSON object, in the order written; empty for any other document. -/
def JSON.keys : JSON → List String
  | .obj fields => fields.map Prod.fst
  | _ => []

/-- A response body (`io.ReadCloser`): the bytes it delivers and, when the stream
breaks instead of ending, the read error met after them. -/
structure Body where
  data : Bytes
  err : Option GoError := none

/-- The two fields of `http.Response` the package reads. -/
structure Response where
  StatusCode : Int
  Body : Body

/-- Result of `ioutil.ReadAll`: the bytes read, and the read error if the stream broke. -/
def ioutil.ReadAll (r : Body) : Bytes × Option GoError :=
  (r.data, r.err)

namespace strings

/-- Go `strings.HasPrefix`.  Go compares bytes; on well-formed UTF-8 text that is
the same as comparing characters. -/
def HasPrefix (s pre : String) : Bool :=
  pre.data.isPrefixOf s.data

end strings

namespace converter

/-- Modelled from the spec: the `converter` package (type declarations
`Conversion`, `AWSS3`, `UploadConversion`) is imported by the source and not part of
it; the spec names the configuration as "S3 credentials, file path, bucket key".
Only the field the source reads, `Path`, is kept. -/
structure Conversion where
  Path : String

/-- Modelled from the spec: storage configuration of the `converter` package, with
the fields the source reads (`AccessKey`, `AccessSecret`, `S3Bucket`, `S3Key`). -/
structure AWSS3 where
  AccessKey : String
  AccessSecret : String
  S3Bucket : String
  S3Key : String

/-- Modelled from the spec: `converter.UploadConversion`, which embeds the document
reference and the storage configuration. -/
structure UploadConversion where
  Conversion : Conversion
  AWSS3 : AWSS3

end converter

namespace cloudconvert

/-- Go `type Client struct`. -/
structure Client where
  BaseURL : String
  APIKey : String

/-- Go `type CloudConvert struct`, embedding `converter.UploadConversion` and `Client`. -/
structure CloudConvert where
  UploadConversion : converter.UploadConversion
  Client : Client

/-- The promoted field `c.Path`. -/
abbrev CloudConvert.Path (c : CloudConvert) : String :=
  c.UploadConversion.Conversion.Path

/-- The promoted field `c.AWSS3`. -/
abbrev CloudConvert.AWSS3 (c : CloudConvert) : converter.AWSS3 :=
  c.UploadConversion.AWSS3

/-- Go `type Process struct`; the defaults are Go zero values, so `{}` is `Process{}`. -/
structure Process where
  ID : String := ""
  URL : String := ""
  Expires : String := ""
  MaxTime : Int := 0
  Minutes : Int := 0

/-- Go `type S3 struct`. -/
structure S3 where
  AccessKey : String
  AccessSecret : String
  Bucket : String
  Path : String
  ACL : String

/-- Go `type Output struct`, embedding `S3` under the JSON name `s3`. -/
structure Output where
  S3 : S3

/-- Go `type Conversion struct`; `Output` is the embedded `*Output`, `none` when nil. -/
structure Conversion where
  Input : String := ""
  File : String := ""
  Filename : String := ""
  OutputFormat : String := ""
  Wait : Bool := false
  Download : String := ""
  Output : Option Output := none

/-- An outbound effect of the package. -/
inductive Event where
  | log (line : String)
  | postForm (url : String) (values : List (String × List String))
  | post (url contentType : String) (body : JSON)

/-- Whether an event is the JSON POST that `StartConversion` issues. -/
def Event.isPost : Event → Bool
  | .post _ _ _ => true
  | _ => false

/-- Whether an event is the form POST that `NewProcess` issues. -/
def Event.isPostForm : Event → Bool
  | .postForm _ _ => true
  | _ => false

/-- What the package obtains from outside itself.

* `PostForm`, `Post`: `net/http`; `.error` is a transport failure.  The body of
  `Post` is the JSON document whose encoding `json.Marshal` produced.
* `DecodeMap`: `json.NewDecoder(body).Decode(&data)` for `data map[string]interface{}`.
* `DecodeProcess`: `json.NewDecoder(body).Decode(&process)`; it is given the value
  of `process` before the call and returns its value after the call and the error.
* `Sprint`: the `%+v` rendering of a decoded map by `fmt`.
* `NewV4`: `uuid.NewV4().String()`. -/
structure Env where
  PostForm : String → List (String × List String) → Except GoError Response
  Post : String → String → JSON → Except GoError Response
  DecodeMap : Body → Except GoError JSONMap
  DecodeProcess : Body → Process → Process × Option GoError
  Sprint : JSONMap → String
  NewV4 : String

/-- JSON encoding of `S3` following its struct tags. -/
def S3.toJSON (s : S3) : JSON :=
  .obj [("accesskeyid", .str s.AccessKey), ("secretaccesskey", .str s.AccessSecret),
        ("bucket", .str s.Bucket), ("path", .str s.Path), ("acl", .str s.ACL)]

/-- JSON encoding of `Output` following its struct tags. -/
def Output.toJSON (o : Output) : JSON :=
  .obj [("s3", o.S3.toJSON)]

/-- Go `json.Marshal(&c)` for a `Conversion`, following its struct tags: `download`
is left out when empty and `output` when nil (`omitempty`).  Encoding strings and
booleans cannot fail, so the error is always nil. -/
def Conversion.Marshal (c : Conversion) : JSON × Option GoError :=
  (.obj ([("input", .str c.Input), ("file", .str c.File), ("filename", .str c.Filename),
          ("outputformat", .str c.OutputFormat), ("wait", .bool c.Wait)]
          ++ (if c.Download = "" then [] else [("download", .str c.Download)])
          ++ (match c.Output with
              | none => []
              | some o => [("output", o.toJSON)])),
   none)

/-- Go `func (c Client) NewProcess(inputFormat, ouputFormat string) (Process, error)`. -/
def Client.NewProcess (env : Env) (c : Client) (inputFormat ouputFormat : String) :
    (Process × Option GoError) × List Event :=
  let process : Process := {}
  let values := [("apikey", [c.APIKey]), ("inputformat", [inputFormat]),
                 ("outputformat", [ouputFormat])]
  let trace := [Event.postForm (c.BaseURL ++ "/process") values]
  match env.PostForm (c.BaseURL ++ "/process") values with
  | .error err => ((process, some err), trace)
  | .ok res =>
    if res.StatusCode ≠ 200 then
      match env.DecodeMap res.Body with
      | .error err => ((process, some err), trace)
      | .ok data =>
        ((process,
          some ⟨"[CloudConvert] did not receive HTTP 200, response: " ++ env.Sprint data ++ "\n"⟩),
         trace)
    else
      match env.DecodeProcess res.Body process with
      | (process, err) =>
        if err = none ∧ strings.HasPrefix process.URL "//" = true then
          (({ process with URL := "https:" ++ process.URL }, err), trace)
        else
          ((process, err), trace)

/-- Go `func (p Process) StartConversion(c Conversion) ([]byte, error)`. -/
def Process.StartConversion (env : Env) (p : Process) (c : Conversion) :
    (Option Bytes × Option GoError) × List Event :=
  match c.Marshal with
  | (_, some err) => ((none, some err), [])
  | (b, none) =>
    let trace := [Event.post p.URL "application/json" b]
    match env.Post p.URL "application/json" b with
    | .error err => ((none, some err), trace)
    | .ok res =>
      if res.StatusCode ≠ 200 then
        match env.DecodeMap res.Body with
        | .error err => ((none, some err), trace)
        | .ok data =>
          ((none,
            some ⟨"[CloudConvert] did not receive HTTP 200, response: " ++ env.Sprint data ++ "\n"⟩),
           trace)
      else if c.Download = "inline" then
        match ioutil.ReadAll res.Body with
        | (_, some err) => ((none, some err), trace)
        | (o, none) => ((some o, none), trace)
      else
        ((none, none), trace)

/-- Lines 126-147 of `Convert`: the local `conv` as it stands when it is handed to
`StartConversion`, and the log line written while it is built. -/
def CloudConvert.Convert.conv (env : Env) (c : CloudConvert) : Conversion × List Event :=
  let conv : Conversion :=
    { Input := "download",
      File := c.Path,
      Filename := c.AWSS3.S3Key ++ ".html",
      OutputFormat := "pdf",
      Wait := true }
  if c.AWSS3.S3Bucket = "" ∨ c.AWSS3.S3Key = "" then
    ({ conv with Download := "inline", Filename := env.NewV4 ++ ".html" }, [])
  else
    ({ conv with
        Output := some ⟨⟨c.AWSS3.AccessKey, c.AWSS3.AccessSecret, c.AWSS3.S3Bucket,
                         c.AWSS3.S3Key, "public-read"⟩⟩ },
     [Event.log ("[CloudConvert] uploading conversion to S3: " ++ c.AWSS3.S3Key ++ "\n")])

/-- Go `func (c CloudConvert) Convert(done <-chan struct{}) ([]byte, error)`. -/
def CloudConvert.Convert (env : Env) (c : CloudConvert) :
    (Option Bytes × Option GoError) × List Event :=
  let t0 := [Event.log ("[CloudConvert] converting to PDF: " ++ c.Path ++ "\n")]
  match c.Client.NewProcess env "html" "pdf" with
  | ((_, some err), t1) => ((none, some err), t0 ++ t1)
  | ((p, none), t1) =>
    match CloudConvert.Convert.conv env c with
    | (conv, t2) =>
      match p.StartConversion env conv with
      | ((_, some err), t3) => ((none, some err), t0 ++ t1 ++ t2 ++ t3)
      | ((b, none), t3) => ((b, none), t0 ++ t1 ++ t2 ++ t3)

namespace mock

/-- The bytes of `{"url":"//host/p1"}`. -/
def processBody : Bytes :=
  [123, 34, 117, 114, 108, 34, 58, 34, 47, 47, 104, 111, 115, 116, 47, 112, 49, 34, 125]

/-- The bytes of `{"error":"x"}`. -/
def errorBody : Bytes :=
  [123, 34, 101, 114, 114, 111, 114, 34, 58, 34, 120, 34, 125]

/-- The bytes of `%PDF-1.4`. -/
def pdfBody : Bytes :=
  [37, 80, 68, 70, 45, 49, 46, 52]

/-- Decoder double for `Decode(&process)`: it knows `processBody`, reports `EOF` on
an empty body as `encoding/json` does, and a syntax error on anything else. -/
def DecodeProcess (b : Body) (target : Process) : Process × Option GoError :=
  if b.data = processBody then ({ target with URL := "//host/p1" }, none)
  else if b.data = [] then (target, some ⟨"EOF"⟩)
  else (target, some ⟨"invalid character"⟩)

/-- Decoder double for `Decode(&data)`: it knows `errorBody`, reports `EOF` on an
empty body and a syntax error on anything else. -/
def DecodeMap (b : Body) : Except GoError JSONMap :=
  if b.data = errorBody then .ok [("error", .str "x")]
  else if b.data = [] then .error ⟨"EOF"⟩
  else .error ⟨"invalid character"⟩

/-- A provider that answers the process request with `first` and the conversion
request with `second`. -/
def env (first second : Except GoError Response) : Env :=
  { PostForm := fun _ _ => first,
    Post := fun _ _ _ => second,
    DecodeMap := DecodeMap,
    DecodeProcess := DecodeProcess,
    Sprint := fun _ => "map[error:x]",
    NewV4 := "f47ac10b-58cc-4372-a567-0e02b2c3d479" }

/-- A status-200 answer carrying `processBody`. -/
def processOK : Except GoError Response :=
  .ok ⟨200, ⟨processBody, none⟩⟩

/-- A status-200 answer carrying `pdfBody`. -/
def pdfOK : Except GoError Response :=
  .ok ⟨200, ⟨pdfBody, none⟩⟩

/-- A status-422 answer carrying `errorBody`. -/
def rejected : Except GoError Response :=
  .ok ⟨422, ⟨errorBody, none⟩⟩

/-- A status-200 answer with an empty body. -/
def emptyOK : Except GoError Response :=
  .ok ⟨200, ⟨[], none⟩⟩

/-- A status-200 answer whose body breaks after two bytes. -/
def brokenOK : Except GoError Response :=
  .ok ⟨200, ⟨[37, 80], some ⟨"unexpected EOF"⟩⟩⟩

/-- A client of the mock provider. -/
def client : Client :=
  ⟨"https://api.example", "secret"⟩

/-- A configuration without a storage bucket. -/
def inlineConfig : CloudConvert :=
  ⟨⟨⟨"https://example.org/doc"⟩, ⟨"AK", "AS", "", "report"⟩⟩, client⟩

/-- A configuration with storage bucket and key. -/
def s3Config : CloudConvert :=
  ⟨⟨⟨"https://example.org/doc"⟩, ⟨"AK", "AS", "bucket", "report"⟩⟩, client⟩

end mock

end cloudconvert

/-! ## Properties -/

namespace cloudconvert

/-- `strings.HasPrefix s "//"` holds exactly when `s` is `"//"` followed by some text. -/
theorem hasPrefix_slashes_iff (s : String) :
    strings.HasPrefix s "//" = true ↔ ∃ rest : String, s = "//" ++ rest := by
  unfold strings.HasPrefix
  rw [List.isPrefixOf_iff_prefix]
  constructor
  · rintro ⟨t, ht⟩
    refine ⟨⟨t⟩, ?_⟩
    apply String.ext
    rw [String.data_append]
    exact ht.symm
  · rintro ⟨rest, hrest⟩
    refine ⟨rest.data, ?_⟩
    rw [hrest, String.data_append]

/-- The events of `NewProcess` are always the single form POST to `BaseURL/process`. -/
theorem newProcess_trace (env : Env) (c : Client) (i o : String) :
    (c.NewProcess env i o).2 =
      [Event.postForm (c.BaseURL ++ "/process")
        [("apikey", [c.APIKey]), ("inputformat", [i]), ("outputformat", [o])]] := by
  unfold Client.NewProcess
  simp only []
  split
  · rfl
  · split
    · split <;> rfl
    · split <;> rfl

/-- The events of `StartConversion` are always the single JSON POST of the
serialized descriptor to the process URL. -/
theorem startConversion_trace (env : Env) (p : Process) (c : Conversion) :
    (p.StartConversion env c).2 = [Event.post p.URL "application/json" c.Marshal.1] := by
  unfold Process.StartConversion
  simp only [Conversion.Marshal]
  split
  · rfl
  · split
    · split <;> rfl
    · split
      · unfold ioutil.ReadAll
        split <;> rfl
      · rfl

/-- An error of `StartConversion` always comes with nil bytes. -/
theorem startConversion_error_nil (env : Env) (p : Process) (c : Conversion)
    (h : (p.StartConversion env c).1.2 ≠ none) : (p.StartConversion env c).1.1 = none := by
  revert h
  unfold Process.StartConversion
  simp only [Conversion.Marshal]
  split
  · intro _; rfl
  · split
    · split <;> intro _ <;> rfl
    · split
      · unfold ioutil.ReadAll
        split
        · intro _; rfl
        · intro h; exact absurd rfl h
      · intro _; rfl

/-- On a status-200 answer whose body decodes to `q` without error, `NewProcess`
returns `q` with a protocol-relative URL completed to "https:" and a nil error. -/
theorem newProcess_decoded (env : Env) (c : Client) (i o : String) (res : Response)
    (q : Process)
    (hpost : env.PostForm (c.BaseURL ++ "/process")
      [("apikey", [c.APIKey]), ("inputformat", [i]), ("outputformat", [o])] = .ok res)
    (hstatus : res.StatusCode = 200)
    (hdec : env.DecodeProcess res.Body {} = (q, none)) :
    (c.NewProcess env i o).1 =
      (if strings.HasPrefix q.URL "//" = true then { q with URL := "https:" ++ q.URL } else q,
       none) := by
  unfold Client.NewProcess
  simp only [hpost, hstatus, ne_eq, not_true_eq_false, if_false, hdec, true_and]
  split <;> rfl

/-- On a status-200 answer to an inline request whose body is read without error,
`StartConversion` returns the bytes of the body. -/
theorem startConversion_inline (env : Env) (p : Process) (c : Conversion)
    (res : Response)
    (hpost : env.Post p.URL "application/json" c.Marshal.1 = .ok res)
    (hstatus : res.StatusCode = 200) (hd : c.Download = "inline")
    (herr : res.Body.err = none) :
    (p.StartConversion env c).1 = (some res.Body.data, none) := by
  unfold Process.StartConversion
  simp only [Conversion.Marshal] at hpost ⊢
  simp only [hpost, hstatus, ne_eq, not_true_eq_false, if_false]
  simp only [hd, if_true, ioutil.ReadAll, herr]

/-- On a status-200 answer to a request that is not inline, `StartConversion` returns
(nil, nil). -/
theorem startConversion_stored (env : Env) (p : Process) (c : Conversion)
    (res : Response)
    (hpost : env.Post p.URL "application/json" c.Marshal.1 = .ok res)
    (hstatus : res.StatusCode = 200) (hd : c.Download ≠ "inline") :
    (p.StartConversion env c).1 = (none, none) := by
  unfold Process.StartConversion
  simp only [Conversion.Marshal] at hpost ⊢
  simp only [hpost, hstatus, ne_eq, not_true_eq_false, if_false]
  simp only [hd, if_false]

/-- On a status-200 answer to an inline request whose body breaks while being read,
`StartConversion` returns nil bytes and the read error. -/
theorem startConversion_read_error (env : Env) (p : Process) (c : Conversion)
    (res : Response) (e : GoError)
    (hpost : env.Post p.URL "application/json" c.Marshal.1 = .ok res)
    (hstatus : res.StatusCode = 200) (hd : c.Download = "inline")
    (herr : res.Body.err = some e) :
    (p.StartConversion env c).1 = (none, some e) := by
  unfold Process.StartConversion
  simp only [Conversion.Marshal] at hpost ⊢
  simp only [hpost, hstatus, ne_eq, not_true_eq_false, if_false]
  simp only [hd, if_true, ioutil.ReadAll, herr]

/-- When `NewProcess` fails, `Convert` stops there with that error. -/
theorem convert_after_failure (env : Env) (c : CloudConvert) (p : Process)
    (e : GoError) (t1 : List Event)
    (h : c.Client.NewProcess env "html" "pdf" = ((p, some e), t1)) :
    CloudConvert.Convert env c =
      ((none, some e),
       Event.log ("[CloudConvert] converting to PDF: " ++ c.Path ++ "\n") :: t1) := by
  unfold CloudConvert.Convert
  simp only [h, List.singleton_append]

/-- When `NewProcess` succeeds with `p`, `Convert` returns what `StartConversion`
returns on `p` and the descriptor built from the configuration. -/
theorem convert_after_process (env : Env) (c : CloudConvert) (p : Process)
    (t1 : List Event)
    (h : c.Client.NewProcess env "html" "pdf" = ((p, none), t1)) :
    CloudConvert.Convert env c =
      ((p.StartConversion env (CloudConvert.Convert.conv env c).1).1,
       Event.log ("[CloudConvert] converting to PDF: " ++ c.Path ++ "\n") ::
         (t1 ++ (CloudConvert.Convert.conv env c).2 ++
           (p.StartConversion env (CloudConvert.Convert.conv env c).1).2)) := by
  have hnil := startConversion_error_nil env p (CloudConvert.Convert.conv env c).1
  unfold CloudConvert.Convert
  simp only [h]
  rcases hsc : p.StartConversion env (CloudConvert.Convert.conv env c).1 with ⟨⟨b, _ | e⟩, t3⟩
  · simp
  · rw [hsc] at hnil
    have hb : b = none := hnil (by simp)
    subst hb
    simp

/-- C1: when S3Bucket or S3Key is empty, the descriptor `Convert` hands to
`StartConversion` has Download = "inline", no Output and Filename = generated UUID
followed by ".html"; and once a process `p` is obtained the request posted to
`p.URL` is that descriptor serialized, with a `download` member and no `output`. -/
theorem convert_inline_descriptor (env : Env) (c : CloudConvert)
    (h : c.AWSS3.S3Bucket = "" ∨ c.AWSS3.S3Key = "") :
    (CloudConvert.Convert.conv env c).1.Download = "inline" ∧
    (CloudConvert.Convert.conv env c).1.Output = none ∧
    (CloudConvert.Convert.conv env c).1.Filename = env.NewV4 ++ ".html" ∧
    ∀ (p : Process) (t1 : List Event),
      c.Client.NewProcess env "html" "pdf" = ((p, none), t1) →
      (CloudConvert.Convert env c).1 =
        (p.StartConversion env
          { Input := "download", File := c.Path, Filename := env.NewV4 ++ ".html",
            OutputFormat := "pdf", Wait := true, Download := "inline", Output := none }).1 ∧
      (CloudConvert.Convert env c).2 =
        [Event.log ("[CloudConvert] converting to PDF: " ++ c.Path ++ "\n"),
         Event.postForm (c.Client.BaseURL ++ "/process")
           [("apikey", [c.Client.APIKey]), ("inputformat", ["html"]),
            ("outputformat", ["pdf"])],
         Event.post p.URL "application/json"
           (.obj [("input", .str "download"), ("file", .str c.Path),
                  ("filename", .str (env.NewV4 ++ ".html")), ("outputformat", .str "pdf"),
                  ("wait", .bool true), ("download", .str "inline")])] := by
  have hconv : CloudConvert.Convert.conv env c =
      ({ Input := "download", File := c.Path, Filename := env.NewV4 ++ ".html",
         OutputFormat := "pdf", Wait := true, Download := "inline", Output := none }, []) := by
    unfold CloudConvert.Convert.conv
    simp only [h, if_true]
  refine ⟨by rw [hconv], by rw [hconv], by rw [hconv], ?_⟩
  intro p t1 hp
  have ht := newProcess_trace env c.Client "html" "pdf"
  rw [hp] at ht
  simp only at ht
  subst ht
  rw [convert_after_process env c p _ hp, hconv, startConversion_trace]
  refine ⟨rfl, ?_⟩
  simp [Conversion.Marshal]

/-- Witness of C1 on the mock provider: a configuration without bucket. -/
theorem convert_inline_descriptor_witness :
    (mock.inlineConfig.AWSS3.S3Bucket = "" ∨ mock.inlineConfig.AWSS3.S3Key = "") ∧
    (CloudConvert.Convert.conv (mock.env mock.processOK mock.pdfOK) mock.inlineConfig).1.Download
      = "inline" ∧
    (CloudConvert.Convert.conv (mock.env mock.processOK mock.pdfOK) mock.inlineConfig).1.Filename
      = "f47ac10b-58cc-4372-a567-0e02b2c3d479.html" :=
  ⟨Or.inl rfl,
   (convert_inline_descriptor (mock.env mock.processOK mock.pdfOK) mock.inlineConfig
      (Or.inl rfl)).1,
   (convert_inline_descriptor (mock.env mock.processOK mock.pdfOK) mock.inlineConfig
      (Or.inl rfl)).2.2.1⟩

/-- C2: when S3Bucket and S3Key are both non-empty, the descriptor `Convert` hands to
`StartConversion` carries the Output destination (AccessKey, AccessSecret, S3Bucket,
S3Key as path, ACL "public-read"), its Download is empty so the serialized request
has no `download` member, and its Filename is S3Key followed by ".html"; once a
process `p` is obtained the request posted to `p.URL` is that descriptor serialized. -/
theorem convert_s3_descriptor (env : Env) (c : CloudConvert)
    (hb : c.AWSS3.S3Bucket ≠ "") (hk : c.AWSS3.S3Key ≠ "") :
    (CloudConvert.Convert.conv env c).1.Output =
      some ⟨⟨c.AWSS3.AccessKey, c.AWSS3.AccessSecret, c.AWSS3.S3Bucket, c.AWSS3.S3Key,
             "public-read"⟩⟩ ∧
    (CloudConvert.Convert.conv env c).1.Download = "" ∧
    "download" ∉ (CloudConvert.Convert.conv env c).1.Marshal.1.keys ∧
    (CloudConvert.Convert.conv env c).1.Filename = c.AWSS3.S3Key ++ ".html" ∧
    ∀ (p : Process) (t1 : List Event),
      c.Client.NewProcess env "html" "pdf" = ((p, none), t1) →
      (CloudConvert.Convert env c).2 =
        [Event.log ("[CloudConvert] converting to PDF: " ++ c.Path ++ "\n"),
         Event.postForm (c.Client.BaseURL ++ "/process")
           [("apikey", [c.Client.APIKey]), ("inputformat", ["html"]),
            ("outputformat", ["pdf"])],
         Event.log ("[CloudConvert] uploading conversion to S3: " ++ c.AWSS3.S3Key ++ "\n"),
         Event.post p.URL "application/json"
           (.obj [("input", .str "download"), ("file", .str c.Path),
                  ("filename", .str (c.AWSS3.S3Key ++ ".html")),
                  ("outputformat", .str "pdf"), ("wait", .bool true),
                  ("output", .obj [("s3", .obj [("accesskeyid", .str c.AWSS3.AccessKey),
                     ("secretaccesskey", .str c.AWSS3.AccessSecret),
                     ("bucket", .str c.AWSS3.S3Bucket), ("path", .str c.AWSS3.S3Key),
                     ("acl", .str "public-read")])])])] := by
  have hconv : CloudConvert.Convert.conv env c =
      ({ Input := "download", File := c.Path, Filename := c.AWSS3.S3Key ++ ".html",
         OutputFormat := "pdf", Wait := true, Download := "",
         Output := some ⟨⟨c.AWSS3.AccessKey, c.AWSS3.AccessSecret, c.AWSS3.S3Bucket,
                          c.AWSS3.S3Key, "public-read"⟩⟩ },
       [Event.log ("[CloudConvert] uploading conversion to S3: " ++ c.AWSS3.S3Key ++ "\n")]) := by
    unfold CloudConvert.Convert.conv
    simp only [hb, hk, or_self, if_false]
  refine ⟨by rw [hconv], by rw [hconv], ?_, by rw [hconv], ?_⟩
  · rw [hconv]
    simp [Conversion.Marshal, JSON.keys]
  · intro p t1 hp
    have ht := newProcess_trace env c.Client "html" "pdf"
    rw [hp] at ht
    simp only at ht
    subst ht
    rw [convert_after_process env c p _ hp, hconv, startConversion_trace]
    simp [Conversion.Marshal, Output.toJSON, S3.toJSON]

/-- Witness of C2 on the mock provider: a configuration with bucket and key. -/
theorem convert_s3_descriptor_witness :
    mock.s3Config.AWSS3.S3Bucket ≠ "" ∧ mock.s3Config.AWSS3.S3Key ≠ "" ∧
    (CloudConvert.Convert.conv (mock.env mock.processOK mock.pdfOK) mock.s3Config).1.Download
      = "" ∧
    (CloudConvert.Convert.conv (mock.env mock.processOK mock.pdfOK) mock.s3Config).1.Filename
      = "report.html" :=
  ⟨by decide, by decide,
   (convert_s3_descriptor (mock.env mock.processOK mock.pdfOK) mock.s3Config
      (by decide) (by decide)).2.1,
   (convert_s3_descriptor (mock.env mock.processOK mock.pdfOK) mock.s3Config
      (by decide) (by decide)).2.2.2.1⟩

/-- C3: on a status-200 answer whose body decodes without error to a process record
`q`, `NewProcess` returns no error and a handle whose URL is "https:" followed by
`q.URL` when `q.URL` starts with "//" and `q.URL` itself otherwise; ID, Expires,
MaxTime and Minutes are those of `q`. -/
theorem newProcess_ok (env : Env) (c : Client) (i o : String) (res : Response) (q : Process)
    (hpost : env.PostForm (c.BaseURL ++ "/process")
      [("apikey", [c.APIKey]), ("inputformat", [i]), ("outputformat", [o])] = .ok res)
    (hstatus : res.StatusCode = 200)
    (hdec : env.DecodeProcess res.Body {} = (q, none)) :
    ∃ p : Process, (c.NewProcess env i o).1 = (p, none) ∧
      ((∃ rest : String, q.URL = "//" ++ rest) → p.URL = "https:" ++ q.URL) ∧
      ((¬ ∃ rest : String, q.URL = "//" ++ rest) → p.URL = q.URL) ∧
      p.ID = q.ID ∧ p.Expires = q.Expires ∧ p.MaxTime = q.MaxTime ∧ p.Minutes = q.Minutes := by
  rw [newProcess_decoded env c i o res q hpost hstatus hdec]
  by_cases hpre : strings.HasPrefix q.URL "//" = true
  · have hex := (hasPrefix_slashes_iff q.URL).1 hpre
    simp only [hpre, if_true]
    exact ⟨_, rfl, fun _ => rfl, fun hn => absurd hex hn, rfl, rfl, rfl, rfl⟩
  · have hex : ¬ ∃ rest : String, q.URL = "//" ++ rest :=
      fun hx => hpre ((hasPrefix_slashes_iff q.URL).2 hx)
    simp only [hpre, if_false]
    exact ⟨_, rfl, fun hx => absurd hx hex, fun _ => rfl, rfl, rfl, rfl, rfl⟩

/-- Witness of C3 on the mock provider: the protocol-relative URL "//host/p1" is
returned as "https://host/p1". -/
theorem newProcess_ok_witness :
    ∃ p : Process,
      (mock.client.NewProcess (mock.env mock.processOK mock.pdfOK) "html" "pdf").1 = (p, none) ∧
      p.URL = "https://host/p1" := by
  obtain ⟨p, hp, hurl, _⟩ :=
    newProcess_ok (mock.env mock.processOK mock.pdfOK) mock.client "html" "pdf"
      ⟨200, ⟨mock.processBody, none⟩⟩ { URL := "//host/p1" } rfl rfl rfl
  exact ⟨p, hp, hurl ⟨"host/p1", rfl⟩⟩

/-- C4: on an answer whose status is not 200, `NewProcess` never returns a nil
error; when the body decodes to a JSON object `d` it returns the zero Process with
the error "[CloudConvert] did not receive HTTP 200, response: " followed by `d`
formatted and a newline, and when the body does not decode it returns the zero
Process with the decode error. -/
theorem newProcess_non200 (env : Env) (c : Client) (i o : String) (res : Response)
    (hpost : env.PostForm (c.BaseURL ++ "/process")
      [("apikey", [c.APIKey]), ("inputformat", [i]), ("outputformat", [o])] = .ok res)
    (hstatus : res.StatusCode ≠ 200) :
    (∀ d : JSONMap, env.DecodeMap res.Body = .ok d →
      (c.NewProcess env i o).1 =
        ({}, some ⟨"[CloudConvert] did not receive HTTP 200, response: "
                    ++ env.Sprint d ++ "\n"⟩)) ∧
    (∀ e : GoError, env.DecodeMap res.Body = .error e →
      (c.NewProcess env i o).1 = ({}, some e)) ∧
    (c.NewProcess env i o).1.2 ≠ none := by
  unfold Client.NewProcess
  simp only [hpost, hstatus, ne_eq, not_false_eq_true, if_true]
  refine ⟨fun d hd => by simp only [hd], fun e he => by simp only [he], ?_⟩
  cases hd : env.DecodeMap res.Body <;> simp

/-- Witness of C4 on the mock provider: a status-422 answer with body
`{"error":"x"}`. -/
theorem newProcess_non200_witness :
    (mock.client.NewProcess (mock.env mock.rejected mock.pdfOK) "html" "pdf").1 =
      ({}, some ⟨"[CloudConvert] did not receive HTTP 200, response: map[error:x]\n"⟩) :=
  (newProcess_non200 (mock.env mock.rejected mock.pdfOK) mock.client "html" "pdf"
    ⟨422, ⟨mock.errorBody, none⟩⟩ rfl (by decide)).1 [("error", .str "x")] rfl

/-- C5: on a status-200 answer, `StartConversion` returns the bytes of the body
with a nil error when the descriptor has Download = "inline" and the body is read
without error, and returns (nil, nil) for every other value of Download, whatever
the body holds. -/
theorem startConversion_ok (env : Env) (p : Process) (c : Conversion) (res : Response)
    (hpost : env.Post p.URL "application/json" c.Marshal.1 = .ok res)
    (hstatus : res.StatusCode = 200) :
    (c.Download = "inline" → res.Body.err = none →
      (p.StartConversion env c).1 = (some res.Body.data, none)) ∧
    (c.Download ≠ "inline" → (p.StartConversion env c).1 = (none, none)) :=
  ⟨fun hd herr => startConversion_inline env p c res hpost hstatus hd herr,
   fun hd => startConversion_stored env p c res hpost hstatus hd⟩

/-- Witness of C5 on the mock provider: an inline descriptor gets the PDF bytes. -/
theorem startConversion_ok_witness :
    (Process.StartConversion (mock.env mock.processOK mock.pdfOK) { URL := "https://host/p1" }
      { Download := "inline" }).1 = (some mock.pdfBody, none) :=
  (startConversion_ok (mock.env mock.processOK mock.pdfOK) { URL := "https://host/p1" }
    { Download := "inline" } ⟨200, ⟨mock.pdfBody, none⟩⟩ rfl rfl).1 rfl rfl

/-- C6: for every descriptor, on an answer whose status is not 200 `StartConversion`
returns nil bytes and a non-nil error, which carries the formatted payload when the
body decodes to a JSON object and is the decode error when it does not; on a
transport failure it returns nil bytes and the transport error. -/
theorem startConversion_failure (env : Env) (p : Process) (c : Conversion) :
    (∀ res : Response, env.Post p.URL "application/json" c.Marshal.1 = .ok res →
      res.StatusCode ≠ 200 →
        (∀ d : JSONMap, env.DecodeMap res.Body = .ok d →
          (p.StartConversion env c).1 =
            (none, some ⟨"[CloudConvert] did not receive HTTP 200, response: "
                          ++ env.Sprint d ++ "\n"⟩)) ∧
        (∀ e : GoError, env.DecodeMap res.Body = .error e →
          (p.StartConversion env c).1 = (none, some e)) ∧
        (p.StartConversion env c).1.1 = none ∧ (p.StartConversion env c).1.2 ≠ none) ∧
    (∀ e : GoError, env.Post p.URL "application/json" c.Marshal.1 = .error e →
      (p.StartConversion env c).1 = (none, some e)) := by
  unfold Process.StartConversion
  simp only [Conversion.Marshal]
  constructor
  · intro res hpost hstatus
    simp only [hpost, hstatus, ne_eq, not_false_eq_true, if_true]
    refine ⟨fun d hd => by simp only [hd], fun e he => by simp only [he], ?_⟩
    cases hd : env.DecodeMap res.Body <;> simp
  · intro e hpost
    simp only [hpost]

/-- Witness of C6 on the mock provider: a status-422 answer to an inline request. -/
theorem startConversion_failure_witness :
    (Process.StartConversion (mock.env mock.processOK mock.rejected) { URL := "https://host/p1" }
      { Download := "inline" }).1 =
      (none, some ⟨"[CloudConvert] did not receive HTTP 200, response: map[error:x]\n"⟩) :=
  ((startConversion_failure (mock.env mock.processOK mock.rejected) { URL := "https://host/p1" }
    { Download := "inline" }).1 ⟨422, ⟨mock.errorBody, none⟩⟩ rfl (by decide)).1
      [("error", .str "x")] rfl

/-- C7: `Convert` runs the two calls in sequence and surfaces the first failure.  If
`NewProcess` returns an error, `Convert` returns (nil, that error) and issues no
conversion request; otherwise, if `StartConversion` returns an error, `Convert`
returns (nil, that error); otherwise it returns the bytes `StartConversion`
returned with a nil error. -/
theorem convert_sequencing (env : Env) (c : CloudConvert) :
    (∀ (p : Process) (e : GoError) (t1 : List Event),
      c.Client.NewProcess env "html" "pdf" = ((p, some e), t1) →
        (CloudConvert.Convert env c).1 = (none, some e) ∧
        ∀ ev ∈ (CloudConvert.Convert env c).2, ev.isPost = false) ∧
    (∀ (p : Process) (t1 : List Event),
      c.Client.NewProcess env "html" "pdf" = ((p, none), t1) →
        (∀ (b : Option Bytes) (e : GoError),
          (p.StartConversion env (CloudConvert.Convert.conv env c).1).1 = (b, some e) →
            (CloudConvert.Convert env c).1 = (none, some e)) ∧
        (∀ b : Option Bytes,
          (p.StartConversion env (CloudConvert.Convert.conv env c).1).1 = (b, none) →
            (CloudConvert.Convert env c).1 = (b, none)) ∧
        ∃ ev ∈ (CloudConvert.Convert env c).2, ev.isPost = true) := by
  constructor
  · intro p e t1 hp
    have ht := newProcess_trace env c.Client "html" "pdf"
    rw [hp] at ht
    simp only at ht
    subst ht
    rw [convert_after_failure env c p e _ hp]
    refine ⟨rfl, ?_⟩
    intro ev hev
    simp only [List.mem_cons, List.mem_singleton, List.not_mem_nil, or_false] at hev
    rcases hev with rfl | rfl <;> rfl
  · intro p t1 hp
    rw [convert_after_process env c p t1 hp]
    refine ⟨?_, ?_, ?_⟩
    · intro b e hsc
      have hnil := startConversion_error_nil env p (CloudConvert.Convert.conv env c).1
      rw [hsc] at hnil ⊢
      have hb : b = none := hnil (by simp)
      rw [hb]
    · intro b hsc
      exact hsc
    · refine ⟨Event.post p.URL "application/json" (CloudConvert.Convert.conv env c).1.Marshal.1,
        ?_, rfl⟩
      rw [startConversion_trace]
      simp

/-- Witness of C7 on the mock provider: the process request is rejected, `Convert`
returns that error and posts no conversion request. -/
theorem convert_sequencing_witness :
    (CloudConvert.Convert (mock.env mock.rejected mock.pdfOK) mock.inlineConfig).1 =
      (none, some ⟨"[CloudConvert] did not receive HTTP 200, response: map[error:x]\n"⟩) :=
  ((convert_sequencing (mock.env mock.rejected mock.pdfOK) mock.inlineConfig).1 {}
    ⟨"[CloudConvert] did not receive HTTP 200, response: map[error:x]\n"⟩
    [Event.postForm "https://api.example/process"
      [("apikey", ["secret"]), ("inputformat", ["html"]), ("outputformat", ["pdf"])]]
    rfl).1

/-- C8, as stated, fails on the mock provider.  Both answers have status 200, yet
(a) without a bucket, an empty process body makes `Convert` return the decode error
`EOF` instead of the PDF body; (b) with bucket and key, the same empty process body
makes `Convert` return that error instead of (nil, nil); (c) without a bucket, a
conversion body that breaks while being read makes `Convert` return the read error
instead of the body. -/
theorem convert_status200_counterexample :
    (mock.inlineConfig.AWSS3.S3Bucket = "" ∧ mock.s3Config.AWSS3.S3Bucket ≠ "" ∧
      mock.s3Config.AWSS3.S3Key ≠ "") ∧
    (mock.emptyOK = .ok ⟨200, ⟨[], none⟩⟩ ∧ mock.pdfOK = .ok ⟨200, ⟨mock.pdfBody, none⟩⟩ ∧
      mock.processOK = .ok ⟨200, ⟨mock.processBody, none⟩⟩ ∧
      mock.brokenOK = .ok ⟨200, ⟨[37, 80], some ⟨"unexpected EOF"⟩⟩⟩) ∧
    (CloudConvert.Convert (mock.env mock.emptyOK mock.pdfOK) mock.inlineConfig).1 =
      (none, some ⟨"EOF"⟩) ∧
    (CloudConvert.Convert (mock.env mock.emptyOK mock.pdfOK) mock.inlineConfig).1 ≠
      (some mock.pdfBody, none) ∧
    (CloudConvert.Convert (mock.env mock.emptyOK mock.pdfOK) mock.s3Config).1 =
      (none, some ⟨"EOF"⟩) ∧
    (CloudConvert.Convert (mock.env mock.emptyOK mock.pdfOK) mock.s3Config).1 ≠
      (none, none) ∧
    (CloudConvert.Convert (mock.env mock.processOK mock.brokenOK) mock.inlineConfig).1 =
      (none, some ⟨"unexpected EOF"⟩) ∧
    (CloudConvert.Convert (mock.env mock.processOK mock.brokenOK) mock.inlineConfig).1 ≠
      (some [37, 80], none) := by
  refine ⟨⟨rfl, by decide, by decide⟩, ⟨rfl, rfl, rfl, rfl⟩, rfl, by decide, rfl, by decide,
    rfl, by decide⟩

/-- C8, amended: on a status-200 process answer whose body decodes without error
and a status-200 conversion answer, `Convert` returns the bytes of the conversion
body with a nil error when S3Bucket or S3Key is empty and that body is read without
error, and returns (nil, nil) when both are non-empty.  When the process body does
not decode, or the inline body breaks while being read, `Convert` returns nil
bytes and that error. -/
theorem convert_end_to_end (env : Env) (c : CloudConvert) (r1 : Response)
    (h1 : env.PostForm (c.Client.BaseURL ++ "/process")
      [("apikey", [c.Client.APIKey]), ("inputformat", ["html"]),
       ("outputformat", ["pdf"])] = .ok r1)
    (hs1 : r1.StatusCode = 200) :
    (∀ (q : Process) (r2 : Response),
      env.DecodeProcess r1.Body {} = (q, none) →
      env.Post (c.Client.NewProcess env "html" "pdf").1.1.URL "application/json"
        (CloudConvert.Convert.conv env c).1.Marshal.1 = .ok r2 →
      r2.StatusCode = 200 →
        ((c.AWSS3.S3Bucket = "" ∨ c.AWSS3.S3Key = "") → r2.Body.err = none →
          (CloudConvert.Convert env c).1 = (some r2.Body.data, none)) ∧
        ((c.AWSS3.S3Bucket = "" ∨ c.AWSS3.S3Key = "") → ∀ e : GoError,
          r2.Body.err = some e → (CloudConvert.Convert env c).1 = (none, some e)) ∧
        (c.AWSS3.S3Bucket ≠ "" ∧ c.AWSS3.S3Key ≠ "" →
          (CloudConvert.Convert env c).1 = (none, none))) ∧
    (∀ (q : Process) (e : GoError), env.DecodeProcess r1.Body {} = (q, some e) →
      (CloudConvert.Convert env c).1 = (none, some e)) := by
  constructor
  · intro q r2 hdec h2 hs2
    have hp := newProcess_decoded env c.Client "html" "pdf" r1 q h1 hs1 hdec
    generalize (if strings.HasPrefix q.URL "//" = true then
      { q with URL := "https:" ++ q.URL } else q) = p at hp
    have hp2 : c.Client.NewProcess env "html" "pdf" =
        ((p, none), (c.Client.NewProcess env "html" "pdf").2) := by
      rw [← hp]
    rw [hp] at h2
    simp only at h2
    rw [convert_after_process env c p _ hp2]
    simp only
    refine ⟨?_, ?_, ?_⟩
    · intro hinline herr
      have hd : (CloudConvert.Convert.conv env c).1.Download = "inline" := by
        unfold CloudConvert.Convert.conv
        simp only [hinline, if_true]
      exact startConversion_inline env p _ r2 h2 hs2 hd herr
    · intro hinline e herr
      have hd : (CloudConvert.Convert.conv env c).1.Download = "inline" := by
        unfold CloudConvert.Convert.conv
        simp only [hinline, if_true]
      exact startConversion_read_error env p _ r2 e h2 hs2 hd herr
    · intro hs3
      have hd : (CloudConvert.Convert.conv env c).1.Download ≠ "inline" := by
        unfold CloudConvert.Convert.conv
        simp only [hs3.1, hs3.2, or_self, if_false]
        decide
      exact startConversion_stored env p _ r2 h2 hs2 hd
  · intro q e hdec
    have hp : c.Client.NewProcess env "html" "pdf" =
        ((q, some e), (c.Client.NewProcess env "html" "pdf").2) := by
      apply Prod.ext
      · unfold Client.NewProcess
        simp [h1, hs1, hdec]
      · rfl
    rw [convert_after_failure env c q e _ hp]

/-- Witness of the amended C8 on the mock provider: without a bucket, `Convert`
returns the PDF bytes of the conversion answer. -/
theorem convert_end_to_end_witness :
    (CloudConvert.Convert (mock.env mock.processOK mock.pdfOK) mock.inlineConfig).1 =
      (some mock.pdfBody, none) :=
  ((convert_end_to_end (mock.env mock.processOK mock.pdfOK) mock.inlineConfig
    ⟨200, ⟨mock.processBody, none⟩⟩ rfl rfl).1 { URL := "//host/p1" }
    ⟨200, ⟨mock.pdfBody, none⟩⟩ rfl rfl rfl).1 (Or.inl rfl) rfl

/-- C9: in both modes `Convert` first requests a process for input format "html" and
output format "pdf", and the descriptor it builds has Input = "download", File = the
configured Path, OutputFormat = "pdf" and Wait = true, whatever the S3
configuration is.  Once a process `p` is obtained, `Convert` returns what
`StartConversion` returns on `p` and a descriptor with those four fields, and the
last request it issues is the JSON POST to `p.URL` of that descriptor serialized,
whose members start with input "download", file Path, filename, outputformat "pdf"
and wait true. -/
theorem convert_fixed_fields (env : Env) (c : CloudConvert) :
    (CloudConvert.Convert env c).2.take 2 =
      [Event.log ("[CloudConvert] converting to PDF: " ++ c.Path ++ "\n"),
       Event.postForm (c.Client.BaseURL ++ "/process")
         [("apikey", [c.Client.APIKey]), ("inputformat", ["html"]),
          ("outputformat", ["pdf"])]] ∧
    (∀ s3 : converter.AWSS3,
      (CloudConvert.Convert.conv env
          { c with UploadConversion := { c.UploadConversion with AWSS3 := s3 } }).1.Input
        = "download" ∧
      (CloudConvert.Convert.conv env
          { c with UploadConversion := { c.UploadConversion with AWSS3 := s3 } }).1.File
        = c.Path ∧
      (CloudConvert.Convert.conv env
          { c with UploadConversion := { c.UploadConversion with AWSS3 := s3 } }).1.OutputFormat
        = "pdf" ∧
      (CloudConvert.Convert.conv env
          { c with UploadConversion := { c.UploadConversion with AWSS3 := s3 } }).1.Wait
        = true) ∧
    (CloudConvert.Convert.conv env c).1.Input = "download" ∧
    (CloudConvert.Convert.conv env c).1.File = c.Path ∧
    (CloudConvert.Convert.conv env c).1.OutputFormat = "pdf" ∧
    (CloudConvert.Convert.conv env c).1.Wait = true ∧
    ∀ (p : Process) (t1 : List Event),
      c.Client.NewProcess env "html" "pdf" = ((p, none), t1) →
      ∃ (d : Conversion) (t2 : List Event) (rest : List (String × JSON)),
        d.Input = "download" ∧ d.File = c.Path ∧ d.OutputFormat = "pdf" ∧ d.Wait = true ∧
        (CloudConvert.Convert env c).1 = (p.StartConversion env d).1 ∧
        (∀ ev ∈ t2, ev.isPost = false) ∧
        (CloudConvert.Convert env c).2 =
          Event.log ("[CloudConvert] converting to PDF: " ++ c.Path ++ "\n") ::
          Event.postForm (c.Client.BaseURL ++ "/process")
            [("apikey", [c.Client.APIKey]), ("inputformat", ["html"]),
             ("outputformat", ["pdf"])] ::
          (t2 ++ [Event.post p.URL "application/json" d.Marshal.1]) ∧
        d.Marshal.1 =
          .obj ([("input", .str "download"), ("file", .str c.Path),
                 ("filename", .str d.Filename), ("outputformat", .str "pdf"),
                 ("wait", .bool true)] ++ rest) := by
  have hfields : ∀ c' : CloudConvert,
      (CloudConvert.Convert.conv env c').1.Input = "download" ∧
      (CloudConvert.Convert.conv env c').1.File = c'.Path ∧
      (CloudConvert.Convert.conv env c').1.OutputFormat = "pdf" ∧
      (CloudConvert.Convert.conv env c').1.Wait = true := by
    intro c'
    unfold CloudConvert.Convert.conv
    split <;> exact ⟨rfl, rfl, rfl, rfl⟩
  obtain ⟨hin, hfile, hfmt, hwait⟩ := hfields c
  refine ⟨?_, fun s3 => hfields _, hin, hfile, hfmt, hwait, ?_⟩
  · have ht := newProcess_trace env c.Client "html" "pdf"
    rcases hp : c.Client.NewProcess env "html" "pdf" with ⟨⟨p, _ | e⟩, t1⟩
    · rw [hp] at ht
      simp only at ht
      subst ht
      rw [convert_after_process env c p _ hp]
      simp
    · rw [hp] at ht
      simp only at ht
      subst ht
      rw [convert_after_failure env c p e _ hp]
      simp
  · intro p t1 hp
    have ht := newProcess_trace env c.Client "html" "pdf"
    rw [hp] at ht
    simp only at ht
    subst ht
    refine ⟨(CloudConvert.Convert.conv env c).1, (CloudConvert.Convert.conv env c).2,
      (if (CloudConvert.Convert.conv env c).1.Download = "" then []
        else [("download", JSON.str (CloudConvert.Convert.conv env c).1.Download)]) ++
      (match (CloudConvert.Convert.conv env c).1.Output with
        | none => []
        | some o => [("output", o.toJSON)]),
      hin, hfile, hfmt, hwait, ?_, ?_, ?_, ?_⟩
    · rw [convert_after_process env c p _ hp]
    · intro ev hev
      unfold CloudConvert.Convert.conv at hev
      split at hev
      · simp at hev
      · simp only [List.mem_singleton] at hev
        rw [hev]
        rfl
    · rw [convert_after_process env c p _ hp, startConversion_trace]
      simp
    · simp only [Conversion.Marshal, hin, hfile, hfmt, hwait, List.append_assoc]

/-- Witness of C9 on the mock provider: with bucket and key configured, the last
request of `Convert` is the JSON POST to the process URL, and the descriptor behind
it has the four fixed fields. -/
theorem convert_fixed_fields_witness :
    ∃ (d : Conversion) (t2 : List Event),
      d.Input = "download" ∧ d.File = "https://example.org/doc" ∧
      d.OutputFormat = "pdf" ∧ d.Wait = true ∧
      (CloudConvert.Convert (mock.env mock.processOK mock.pdfOK) mock.s3Config).2 =
        Event.log "[CloudConvert] converting to PDF: https://example.org/doc\n" ::
        Event.postForm "https://api.example/process"
          [("apikey", ["secret"]), ("inputformat", ["html"]), ("outputformat", ["pdf"])] ::
        (t2 ++ [Event.post "https://host/p1" "application/json" d.Marshal.1]) := by
  obtain ⟨d, t2, _, h1, h2, h3, h4, _, _, h7, _⟩ :=
    (convert_fixed_fields (mock.env mock.processOK mock.pdfOK) mock.s3Config).2.2.2.2.2.2
      { URL := "https://host/p1" }
      [Event.postForm "https://api.example/process"
        [("apikey", ["secret"]), ("inputformat", ["html"]), ("outputformat", ["pdf"])]]
      rfl
  exact ⟨d, t2, h1, h2, h3, h4, h7⟩

end cloudconvert
